import Mathlib

/-!
Verification development for the cell-mapping extraction engine of the
B&R underwriting dashboard repository: a shallow embedding of
`src/data_extraction/excel_extraction_system.py` and
`src/data_extraction/error_handling_system.py`, followed by theorems about
the embedded definitions.

Conventions of the embedding:
* Python strings are manipulated as `List Char` where the Python code uses
  `.strip()`, `.lower()`, `.upper()`, `.replace(...)` or substring tests;
  `String` is used at interfaces.  `\d` of the Python regexes is modelled as
  the ASCII digits (the addresses handled by the system are ASCII).
* Python cell values are the inductive `PyValue`.  Python `bool` is a
  subclass of `int`, so in `process_cell_value` a boolean satisfies
  `isinstance(value, (int, float))` and is returned unchanged by the numeric
  branch; the embedding returns it unchanged as well.
* Finite floats are carried as rationals; the value NaN returned for all
  missing/failed reads (`np.nan`) is `PyValue.floatV FloatKind.nan`.
* Wall-clock data (the `timestamp` of an error record, the
  `duration_seconds` of a run, the iso timestamp of a record) is not
  modelled; the decimal rounding of the percentage in the error summary is
  kept as the exact rational.
-/

namespace BRUW

/-- Python `str.strip` whitespace test (`Char.isWhitespace` on ASCII input). -/
def isWS (c : Char) : Bool := c.isWhitespace

/-- Python `str.strip()`: drop leading and trailing whitespace. -/
def pyStrip (cs : List Char) : List Char :=
  ((cs.dropWhile isWS).reverse.dropWhile isWS).reverse

/-- Python `str.lower()` (ASCII). -/
def pyLower (cs : List Char) : List Char := cs.map Char.toLower

/-- Python `str.upper()` (ASCII). -/
def pyUpper (cs : List Char) : List Char := cs.map Char.toUpper

/-- `charsStartWith needle hay`: `hay` begins with `needle`. -/
def charsStartWith : List Char → List Char → Bool
  | [], _ => true
  | _ :: _, [] => false
  | n :: ns, h :: hs => n == h && charsStartWith ns hs

/-- Python `needle in hay` substring containment. -/
def containsSub (hay needle : List Char) : Bool :=
  (List.range (hay.length + 1)).any fun i => charsStartWith needle (hay.drop i)

/-- Python `cell_address.replace('$', '')`: remove every dollar sign. -/
def stripDollars (cs : List Char) : List Char := cs.filter (fun c => c ≠ '$')

/-- Python `int(...)` on a string of decimal digits. -/
def digitsToNat (cs : List Char) : Nat :=
  cs.foldl (fun a c => a * 10 + (c.toNat - 48)) 0

/-- Kind of a Python float: NaN, an infinity, or a finite value
(finite values carried as rationals; see the header note). -/
inductive FloatKind where
  | nan : FloatKind
  | inf (neg : Bool) : FloatKind
  | fin (q : ℚ) : FloatKind
deriving DecidableEq

/-- A raw Python cell value as seen by `process_cell_value`:
`None`, `str`, `int`, `float`, `bool`, `datetime` (opaque tick count), or
any other object (`objV (some s)` when `str(value)` succeeds with `s`,
`objV none` when `str(value)` itself raises). -/
inductive PyValue where
  | none : PyValue
  | str (s : String) : PyValue
  | intV (n : Int) : PyValue
  | floatV (k : FloatKind) : PyValue
  | boolV (b : Bool) : PyValue
  | datetimeV (t : Nat) : PyValue
  | objV (s : Option String) : PyValue
deriving DecidableEq

/-- The canonical missing marker `np.nan`. -/
def nanValue : PyValue := PyValue.floatV FloatKind.nan

/-- `ErrorCategory` of `error_handling_system.py` (nine members, in source
order). -/
inductive ErrorCategory where
  | missing_sheet
  | invalid_cell_address
  | cell_not_found
  | formula_error
  | data_type_error
  | empty_value
  | file_access_error
  | parsing_error
  | unknown_error
deriving DecidableEq

/-- The nine members of `ErrorCategory`, in declaration order (the iteration
order of `{cat: 0 for cat in ErrorCategory}`). -/
def allCategories : List ErrorCategory :=
  [ErrorCategory.missing_sheet, ErrorCategory.invalid_cell_address,
   ErrorCategory.cell_not_found, ErrorCategory.formula_error,
   ErrorCategory.data_type_error, ErrorCategory.empty_value,
   ErrorCategory.file_access_error, ErrorCategory.parsing_error,
   ErrorCategory.unknown_error]

/-- The dataclass `ExtractionError` (timestamp not modelled, see header). -/
structure ExtractionErrorRec where
  category : ErrorCategory
  field_name : String
  sheet_name : String
  cell_address : String
  error_message : String
  original_value : Option PyValue := Option.none
  suggested_fix : Option String := Option.none
deriving DecidableEq

/-- `self.error_counts`: one counter per category. -/
structure ErrorCounts where
  missing_sheet : Nat := 0
  invalid_cell_address : Nat := 0
  cell_not_found : Nat := 0
  formula_error : Nat := 0
  data_type_error : Nat := 0
  empty_value : Nat := 0
  file_access_error : Nat := 0
  parsing_error : Nat := 0
  unknown_error : Nat := 0
deriving DecidableEq

/-- `self.error_counts[cat] += 1`. -/
def bumpCount (cat : ErrorCategory) (c : ErrorCounts) : ErrorCounts :=
  match cat with
  | ErrorCategory.missing_sheet => { c with missing_sheet := c.missing_sheet + 1 }
  | ErrorCategory.invalid_cell_address => { c with invalid_cell_address := c.invalid_cell_address + 1 }
  | ErrorCategory.cell_not_found => { c with cell_not_found := c.cell_not_found + 1 }
  | ErrorCategory.formula_error => { c with formula_error := c.formula_error + 1 }
  | ErrorCategory.data_type_error => { c with data_type_error := c.data_type_error + 1 }
  | ErrorCategory.empty_value => { c with empty_value := c.empty_value + 1 }
  | ErrorCategory.file_access_error => { c with file_access_error := c.file_access_error + 1 }
  | ErrorCategory.parsing_error => { c with parsing_error := c.parsing_error + 1 }
  | ErrorCategory.unknown_error => { c with unknown_error := c.unknown_error + 1 }

/-- Read the counter of a category. -/
def getCount (cat : ErrorCategory) (c : ErrorCounts) : Nat :=
  match cat with
  | ErrorCategory.missing_sheet => c.missing_sheet
  | ErrorCategory.invalid_cell_address => c.invalid_cell_address
  | ErrorCategory.cell_not_found => c.cell_not_found
  | ErrorCategory.formula_error => c.formula_error
  | ErrorCategory.data_type_error => c.data_type_error
  | ErrorCategory.empty_value => c.empty_value
  | ErrorCategory.file_access_error => c.file_access_error
  | ErrorCategory.parsing_error => c.parsing_error
  | ErrorCategory.unknown_error => c.unknown_error

/-- Mutable state of an `ErrorHandler` instance: `self.errors` and
`self.error_counts`. -/
structure ErrorHandlerState where
  errors : List ExtractionErrorRec := []
  counts : ErrorCounts := {}
deriving DecidableEq

/-- `ErrorHandler.__init__`: empty error list, all counters zero. -/
def initHandler : ErrorHandlerState := {}

/-- `ErrorHandler._log_error`: append the record and bump its category
counter (the structured-log side effect has no state). -/
def logError (e : ExtractionErrorRec) (st : ErrorHandlerState) : ErrorHandlerState :=
  { errors := st.errors ++ [e], counts := bumpCount e.category st.counts }

/-- A single-quote character, used to reproduce the quoted fragments of the
source message strings. -/
def sq : String := String.singleton (Char.ofNat 39)

/-- Python `str.split()`: split on whitespace runs, no empty words. -/
def pySplitWS (cs : List Char) : List String :=
  ((cs.foldr
      (fun c acc =>
        if isWS c then ([], acc.1 :: acc.2)
        else (c :: acc.1, acc.2))
      (([] : List Char), ([] : List (List Char)))) |>
    fun p => p.1 :: p.2).filterMap
      (fun w => if w = [] then Option.none else some (String.mk w))

/-- `ErrorHandler._find_similar_sheets`: case-insensitive exact match
returns the single sheet at once; otherwise substring containment or a
Jaccard word-set similarity of at least the 0.6 threshold adds a
candidate.  The float comparison of the source is modelled exactly over
rationals. -/
def findSimilarSheets (target : String) (avail : List String) : List String :=
  let targetLower := String.mk (pyLower target.toList)
  let rec go : List String → List String → List String
    | [], acc => acc.reverse
    | sheet :: rest, acc =>
      let sheetLower := String.mk (pyLower sheet.toList)
      if targetLower = sheetLower then [sheet]
      else if containsSub sheetLower.toList targetLower.toList
           || containsSub targetLower.toList sheetLower.toList then
        go rest (sheet :: acc)
      else
        let targetWords := (pySplitWS targetLower.toList).dedup
        let sheetWords := (pySplitWS sheetLower.toList).dedup
        if targetWords ≠ [] ∧ sheetWords ≠ [] then
          let inter := targetWords.filter (fun w => w ∈ sheetWords)
          let union := (targetWords ++ sheetWords).dedup
          if ((inter.length : ℚ) / (union.length : ℚ)) ≥ 6 / 10 then
            go rest (sheet :: acc)
          else go rest acc
        else go rest acc
  go avail []

/-- `ErrorHandler.handle_missing_sheet`. -/
def handleMissingSheet (field_name sheet_name : String)
    (available_sheets : List String) (st : ErrorHandlerState) :
    PyValue × ErrorHandlerState :=
  let similar := findSimilarSheets sheet_name available_sheets
  let fix : Option String :=
    if similar ≠ [] then
      some ("Similar sheets found: " ++ String.intercalate ", " (similar.take 3))
    else Option.none
  let e : ExtractionErrorRec :=
    { category := ErrorCategory.missing_sheet
      field_name := field_name
      sheet_name := sheet_name
      cell_address := "N/A"
      error_message := "Sheet " ++ sq ++ sheet_name ++ sq ++ " not found in workbook"
      suggested_fix := fix }
  (nanValue, logError e st)

/-- `ErrorHandler.handle_invalid_cell_address`. -/
def handleInvalidCellAddress (field_name sheet_name cell_address error_msg : String)
    (st : ErrorHandlerState) : PyValue × ErrorHandlerState :=
  let e : ExtractionErrorRec :=
    { category := ErrorCategory.invalid_cell_address
      field_name := field_name
      sheet_name := sheet_name
      cell_address := cell_address
      error_message := "Invalid cell address format: " ++ error_msg
      suggested_fix := some ("Check cell address format (e.g., " ++ sq ++ "A1" ++ sq
        ++ ", " ++ sq ++ "B10" ++ sq ++ ", " ++ sq ++ "$C$5" ++ sq ++ ")") }
  (nanValue, logError e st)

/-- `ErrorHandler.handle_cell_not_found` (`sheet_size` is the
`(rows_checked, target_col + 1)` pair the extractor passes; the column
component is an `Int` because the source computes it from the 0-based
target column). -/
def handleCellNotFound (field_name sheet_name cell_address : String)
    (sheet_size : Option (Nat × Int)) (st : ErrorHandlerState) :
    PyValue × ErrorHandlerState :=
  let fix : String :=
    match sheet_size with
    | some (max_row, max_col) =>
        "Sheet has " ++ toString max_row ++ " rows and " ++ toString max_col ++ " columns"
    | Option.none => "Check if cell address is within sheet bounds"
  let e : ExtractionErrorRec :=
    { category := ErrorCategory.cell_not_found
      field_name := field_name
      sheet_name := sheet_name
      cell_address := cell_address
      error_message := "Cell " ++ cell_address ++ " not found or outside sheet bounds"
      suggested_fix := some fix }
  (nanValue, logError e st)

/-- The seven spreadsheet error codes, in source order. -/
def excelErrorCodes : List String :=
  ["#REF!", "#VALUE!", "#DIV/0!", "#NAME?", "#N/A", "#NULL!", "#NUM!"]

/-- The `error_meanings` table of `handle_formula_error`. -/
def errorMeaning (code : String) : String :=
  if code = "#REF!" then "Invalid cell reference"
  else if code = "#VALUE!" then "Wrong data type for operation"
  else if code = "#DIV/0!" then "Division by zero"
  else if code = "#NAME?" then "Unrecognized function or name"
  else if code = "#N/A" then "Value not available"
  else if code = "#NULL!" then "Incorrect range operator"
  else if code = "#NUM!" then "Invalid numeric value"
  else "Unknown formula error"

/-- `ErrorHandler.handle_formula_error`. -/
def handleFormulaError (field_name sheet_name cell_address formula_error : String)
    (st : ErrorHandlerState) : PyValue × ErrorHandlerState :=
  let e : ExtractionErrorRec :=
    { category := ErrorCategory.formula_error
      field_name := field_name
      sheet_name := sheet_name
      cell_address := cell_address
      error_message := "Formula error " ++ formula_error ++ ": " ++ errorMeaning formula_error
      original_value := some (PyValue.str formula_error)
      suggested_fix := some ("Fix formula causing " ++ formula_error ++ " error") }
  (nanValue, logError e st)

/-- `ErrorHandler.handle_data_type_error` (the interpolated `'{value}'`
fragment of the message is represented by the placeholder `valueText`). -/
def handleDataTypeError (field_name sheet_name cell_address : String)
    (value : PyValue) (valueText expected_type : String)
    (st : ErrorHandlerState) : PyValue × ErrorHandlerState :=
  let e : ExtractionErrorRec :=
    { category := ErrorCategory.data_type_error
      field_name := field_name
      sheet_name := sheet_name
      cell_address := cell_address
      error_message := "Cannot convert " ++ sq ++ valueText ++ sq ++ " to " ++ expected_type
      original_value := some value
      suggested_fix := some ("Ensure cell contains valid " ++ expected_type ++ " data") }
  (nanValue, logError e st)

/-- `ErrorHandler.handle_empty_value`: logs a diagnostic only when
`treat_as_error` is set (its default at every call site in the repository
is `False`); always returns the NaN marker. -/
def handleEmptyValue (field_name sheet_name cell_address : String)
    (treat_as_error : Bool) (st : ErrorHandlerState) :
    PyValue × ErrorHandlerState :=
  if treat_as_error then
    let e : ExtractionErrorRec :=
      { category := ErrorCategory.empty_value
        field_name := field_name
        sheet_name := sheet_name
        cell_address := cell_address
        error_message := "Cell is empty or contains null value"
        suggested_fix := some "Verify if this field should contain data" }
    (nanValue, logError e st)
  else (nanValue, st)

/-- `ErrorHandler.handle_parsing_error`. -/
def handleParsingError (field_name sheet_name cell_address error_msg : String)
    (st : ErrorHandlerState) : PyValue × ErrorHandlerState :=
  let e : ExtractionErrorRec :=
    { category := ErrorCategory.parsing_error
      field_name := field_name
      sheet_name := sheet_name
      cell_address := cell_address
      error_message := "Parsing error: " ++ error_msg
      suggested_fix := some "Check cell content format and data validity" }
  (nanValue, logError e st)

/-- `ErrorHandler.handle_file_access_error`. -/
def handleFileAccessError (field_name error_msg : String)
    (st : ErrorHandlerState) : PyValue × ErrorHandlerState :=
  let e : ExtractionErrorRec :=
    { category := ErrorCategory.file_access_error
      field_name := field_name
      sheet_name := "N/A"
      cell_address := "N/A"
      error_message := "File access error: " ++ error_msg
      suggested_fix := some "Check file path, permissions, and file format" }
  (nanValue, logError e st)

/-- `ErrorHandler.handle_unknown_error`. -/
def handleUnknownError (field_name sheet_name cell_address error_msg : String)
    (st : ErrorHandlerState) : PyValue × ErrorHandlerState :=
  let e : ExtractionErrorRec :=
    { category := ErrorCategory.unknown_error
      field_name := field_name
      sheet_name := sheet_name
      cell_address := cell_address
      error_message := "Unexpected error: " ++ error_msg
      suggested_fix := some "Contact support with error details" }
  (nanValue, logError e st)

/-- The `missing_indicators` list of `process_cell_value`, as character
lists for comparison against the lowered and stripped cell text. -/
def missingIndicators : List (List Char) :=
  ["n/a", "na", "null", "none", "", "-", "tbd", "tba"].map String.toList

/-- `ErrorHandler.process_cell_value`.  Branch order follows the source:
None / `''` first, then strings (formula codes before null sentinels),
then `int`/`float` (a Python `bool` also satisfies that `isinstance` test
and is returned unchanged; the separate `bool` branch of the source is
unreachable), then `datetime`, then the stringification fallback. -/
def processCellValue (value : PyValue) (field_name sheet_name cell_address : String)
    (st : ErrorHandlerState) : PyValue × ErrorHandlerState :=
  match value with
  | PyValue.none => handleEmptyValue field_name sheet_name cell_address false st
  | PyValue.str s =>
    if s = "" then handleEmptyValue field_name sheet_name cell_address false st
    else
      match excelErrorCodes.find? (fun code => containsSub s.toList code.toList) with
      | some code => handleFormulaError field_name sheet_name cell_address code st
      | Option.none =>
        if pyStrip (pyLower s.toList) ∈ missingIndicators then
          handleEmptyValue field_name sheet_name cell_address false st
        else (PyValue.str (String.mk (pyStrip s.toList)), st)
  | PyValue.intV n => (PyValue.intV n, st)
  | PyValue.floatV FloatKind.nan => handleEmptyValue field_name sheet_name cell_address false st
  | PyValue.floatV (FloatKind.inf _) => handleEmptyValue field_name sheet_name cell_address false st
  | PyValue.floatV (FloatKind.fin q) => (PyValue.floatV (FloatKind.fin q), st)
  | PyValue.boolV b => (PyValue.boolV b, st)
  | PyValue.datetimeV t => (PyValue.datetimeV t, st)
  | PyValue.objV (some s) => (PyValue.str s, st)
  | PyValue.objV Option.none =>
      handleDataTypeError field_name sheet_name cell_address
        (PyValue.objV Option.none) "object" "string" st

/-- Uppercase-letter test of the regex class `[A-Z]`. -/
def isUpperLetter (c : Char) : Bool := 'A' ≤ c && c ≤ 'Z'

/-- The regex match `^([A-Z]+)(\d+)$` of `_extract_cell_value`: a nonempty
maximal run of `A`-`Z` followed by a nonempty run of digits and nothing
else; returns the two groups. -/
def splitAddrChars (cs : List Char) : Option (List Char × List Char) :=
  let letters := cs.takeWhile isUpperLetter
  let rest := cs.dropWhile isUpperLetter
  if letters ≠ [] ∧ rest ≠ [] ∧ rest.all Char.isDigit then some (letters, rest)
  else Option.none

/-- The column-letter loop of `_extract_cell_value`:
`target_col = target_col * 26 + (ord(char) - ord('A') + 1)` over the
letter group. -/
def base26 (cs : List Char) : Nat :=
  cs.foldl (fun acc c => acc * 26 + (c.toNat - 'A'.toNat + 1)) 0

/-- Modelled from the spec: base-26 positional arithmetic over the letter
run (`A`=1 … `Z`=26, `AA`=27), most significant letter first.  Kept as a
second definition to compare against the source loop `base26`. -/
def base26Spec : List Char → Nat
  | [] => 0
  | c :: rest => (c.toNat - 'A'.toNat + 1) * 26 ^ rest.length + base26Spec rest

/-- The address-cleaning and coordinate-translation fragment of the pyxlsb
branch of `_extract_cell_value` (lines 344-365 of the source): strip `$`,
uppercase, match `^([A-Z]+)(\d+)$`, then target the 0-based pair
`(int(row) - 1, base26(col) - 1)`.  The components are integers because
the Python subtraction can reach `-1` (address row `0`). -/
def pyxlsbTarget (cell_address : String) : Option (Int × Int) :=
  let clean := pyUpper (stripDollars cell_address.toList)
  match splitAddrChars clean with
  | Option.none => Option.none
  | some (colStr, rowStr) =>
      some ((digitsToNat rowStr : Int) - 1, (base26 colStr : Int) - 1)

/-- One cell as enumerated by pyxlsb: native 0-based row `r`, native
0-based column `c`, raw value `v`. -/
structure XlsbCell where
  r : Nat
  c : Nat
  v : PyValue
deriving DecidableEq

/-- A pyxlsb sheet: the list of rows its `rows()` iterator yields, each a
list of cells. -/
structure XlsbSheet where
  rows : List (List XlsbCell)
deriving DecidableEq

/-- A pyxlsb workbook: named sheets in `workbook.sheets` order. -/
structure XlsbWorkbook where
  sheets : List (String × XlsbSheet)
deriving DecidableEq

/-- `list(workbook.sheets)` of a pyxlsb workbook. -/
def XlsbWorkbook.sheetNames (w : XlsbWorkbook) : List String := w.sheets.map Prod.fst

/-- An openpyxl workbook: `sheetnames` plus the stored cell values keyed by
sheet name and canonical coordinate (missing keys read as empty cells). -/
structure XlsxWorkbook where
  sheetnames : List String
  cells : List ((String × String) × PyValue)
deriving DecidableEq

/-- Modelled behavior of the external openpyxl library coordinate parser
backing `sheet[cell_address]` (regex `^[$]?([A-Za-z]{1,3})[$]?(\d+)$`,
column letters uppercased): returns the canonical single-cell key, or
nothing when the library would raise. -/
def openpyxlParse (s : String) : Option String :=
  let cs := s.toList
  let cs1 := if cs.head? = some '$' then cs.tail else cs
  let letters := cs1.takeWhile Char.isAlpha
  let rest1 := cs1.dropWhile Char.isAlpha
  let rest2 := if rest1.head? = some '$' then rest1.tail else rest1
  if 1 ≤ letters.length ∧ letters.length ≤ 3 ∧ rest2 ≠ [] ∧ rest2.all Char.isDigit
  then some (String.mk (pyUpper letters ++ rest2))
  else Option.none

/-- The openpyxl lookup `sheet[cell_address].value`: an unparsable address
raises (an `Except.error`); a parsable one reads the stored value, an
absent entry being an empty cell (`None` value). -/
def xlsxLookup (w : XlsxWorkbook) (sheet_name cell_address : String) :
    Except String PyValue :=
  match openpyxlParse cell_address with
  | Option.none => Except.error (cell_address ++ " is not a valid coordinate")
  | some key =>
      match w.cells.find? (fun p => p.1 == (sheet_name, key)) with
      | some p => Except.ok p.2
      | Option.none => Except.ok PyValue.none

/-- An open workbook handle of one of the two container kinds.  The
source distinguishes them by probing for a `sheets` attribute; the tag of
this sum plays that role. -/
inductive Workbook where
  | xlsb (w : XlsbWorkbook)
  | xlsx (w : XlsxWorkbook)
deriving DecidableEq

/-- The first scan loop of the pyxlsb branch: walk `sheet.rows()`, skip
empty rows (`if not row_data: continue`), count the non-empty rows
visited, and return the first cell whose native coordinates equal the
target. -/
def scanRows (tr tc : Int) : List (List XlsbCell) → Nat →
    Option PyValue × Nat
  | [], n => (Option.none, n)
  | row :: rest, n =>
    if row = [] then scanRows tr tc rest n
    else
      match row.find? (fun cell => ((cell.r : Int) == tr) && ((cell.c : Int) == tc)) with
      | some cell => (some cell.v, n + 1)
      | Option.none => scanRows tr tc rest (n + 1)

/-- The second ("alternative method") scan of the pyxlsb branch: iterate
every cell of every row and return the first coordinate match. -/
def findInAll (tr tc : Int) : List (List XlsbCell) → Option PyValue
  | [] => Option.none
  | row :: rest =>
    match row.find? (fun cell => ((cell.r : Int) == tr) && ((cell.c : Int) == tc)) with
    | some cell => some cell.v
    | Option.none => findInAll tr tc rest

/-- `ExcelDataExtractor._extract_cell_value`.  The body of the source is
wrapped in a `try`/`except` whose handler classifies as UnknownError;
in the embedding the fallible library operations (`get_sheet` on a name
that vanished, the openpyxl indexer) surface as the explicitly handled
error branches. -/
def extractCellValue (wb : Workbook) (sheet_name cell_address field_name : String)
    (st : ErrorHandlerState) : PyValue × ErrorHandlerState :=
  match wb with
  | Workbook.xlsb w =>
    if sheet_name ∈ w.sheetNames then
      match pyxlsbTarget cell_address with
      | Option.none =>
          handleInvalidCellAddress field_name sheet_name cell_address
            ("Invalid format - expected format like " ++ sq ++ "A1" ++ sq
              ++ ", " ++ sq ++ "B10" ++ sq) st
      | some (tr, tc) =>
          match w.sheets.find? (fun p => p.1 == sheet_name) with
          | Option.none =>
              -- unreachable after the membership test; a raising
              -- `get_sheet` would be caught by the outer `except`
              handleUnknownError field_name sheet_name cell_address
                "get_sheet failed" st
          | some p =>
              match scanRows tr tc p.2.rows 0 with
              | (some v, _) =>
                  processCellValue v field_name sheet_name cell_address st
              | (Option.none, rows_checked) =>
                  match findInAll tr tc p.2.rows with
                  | some v =>
                      processCellValue v field_name sheet_name cell_address st
                  | Option.none =>
                      handleCellNotFound field_name sheet_name cell_address
                        (some (rows_checked, tc + 1)) st
    else handleMissingSheet field_name sheet_name w.sheetNames st
  | Workbook.xlsx w =>
    if sheet_name ∈ w.sheetnames then
      match xlsxLookup w sheet_name cell_address with
      | Except.ok v => processCellValue v field_name sheet_name cell_address st
      | Except.error e =>
          handleUnknownError field_name sheet_name cell_address e st
    else handleMissingSheet field_name sheet_name w.sheetnames st

/-- The dataclass `CellMapping`. -/
structure CellMapping where
  category : String
  description : String
  sheet_name : String
  cell_address : String
  field_name : String
deriving DecidableEq

/-- Per-character effect of the sequential single-character `replace`
calls of `_clean_field_name` (space, dash and slash become underscores;
parentheses and dots are deleted). -/
def cleanChar (c : Char) : Option Char :=
  if c = ' ' ∨ c = '-' ∨ c = '/' then some '_'
  else if c = '(' ∨ c = ')' ∨ c = '.' then Option.none
  else some c

/-- The `while "__" in clean_name` loop of `_clean_field_name`: its fixed
point collapses every run of underscores to a single one (a leading
underscore of a pair is dropped while its successor is kept, which is
that fixed point). -/
def collapseUU : List Char → List Char
  | [] => []
  | c1 :: rest =>
    match rest with
    | [] => [c1]
    | c2 :: _ =>
      if c1 = '_' ∧ c2 = '_' then collapseUU rest
      else c1 :: collapseUU rest

/-- `CellMappingParser._clean_field_name`. -/
def cleanFieldName (description : String) : String :=
  String.mk (collapseUU (pyUpper ((pyStrip description.toList).filterMap cleanChar)))

/-- One row of the reference DataFrame, reduced to the four columns the
loader reads (column positions B, C, D, G of the sheet); `Option.none`
stands for a `NaN` entry, on which `pd.notna` is false. -/
structure RefRow where
  category : Option String
  description : Option String
  sheet : Option String
  cell : Option String
deriving DecidableEq

/-- Python `str(x)` applied to a possibly-`NaN` column entry: a missing
(float `nan`) entry stringifies to `"nan"`. -/
def pyStrOfOpt (o : Option String) : String :=
  match o with
  | some s => s
  | Option.none => "nan"

/-- The `CellMapping` built from an accepted reference row (the
`pd.notna` guard of the loader admits the row): category defaults to
`"Uncategorized"`, the cell address is `str(...).strip().upper()`. -/
def mkMapping (r : RefRow) : CellMapping :=
  let description := pyStrOfOpt r.description
  { category := match r.category with
      | some c => c
      | Option.none => "Uncategorized"
    description := description
    sheet_name := pyStrOfOpt r.sheet
    cell_address := String.mk (pyUpper (pyStrip (pyStrOfOpt r.cell).toList))
    field_name := cleanFieldName description }

/-- Python dict assignment `self.mappings[field_name] = mapping`: replace
in place when the key exists (keeping its position), otherwise append. -/
def upsert : List (String × CellMapping) → String → CellMapping →
    List (String × CellMapping)
  | [], k, v => [(k, v)]
  | (k', v') :: rest, k, v =>
    if k' = k then (k, v) :: rest else (k', v') :: upsert rest k v

/-- A reference row is processed (not skipped) iff `pd.notna` holds of its
description and cell-address entries — the loader's only guard. -/
def rowAccepted (r : RefRow) : Bool := r.description.isSome && r.cell.isSome

/-- One iteration of the row loop of `CellMappingParser.load_mappings`. -/
def loadStep (m : List (String × CellMapping)) (r : RefRow) :
    List (String × CellMapping) :=
  if rowAccepted r then
    let mp := mkMapping r
    upsert m mp.field_name mp
  else m

/-- `CellMappingParser.load_mappings`, from the reference rows to the
insertion-ordered `field_name → CellMapping` dictionary. -/
def loadMappings (rows : List RefRow) : List (String × CellMapping) :=
  rows.foldl loadStep []

/-- One entry of the `error_breakdown_by_category` dictionary of
`get_error_summary` (nonzero categories only; percentage kept as the
exact rational, see header). -/
structure CategoryCount where
  category : ErrorCategory
  count : Nat
  percentage : ℚ
deriving DecidableEq

/-- One entry of the `most_common_errors` listing. -/
structure CommonError where
  category : ErrorCategory
  message : String
  count : Nat
  example_field : String
  suggested_fix : Option String
deriving DecidableEq

/-- The error summary returned by `ErrorHandler.get_error_summary`.  The
zero-error early return of the source has a different dict shape
(`total_errors`, `error_rate`, `categories`, `summary`); it is represented
by the same structure with empty lists and the `summary_note` set. -/
structure ErrorSummary where
  total_errors : Nat
  category_breakdown : List CategoryCount
  most_common : List CommonError
  recommendations : List String
  detailed : List ExtractionErrorRec
  summary_note : Option String
deriving DecidableEq

/-- The grouping loop of `get_error_summary`: fold the error list into
per-`(category, message)` buckets in first-occurrence order, counting
occurrences; `example_field` and `suggested_fix` come from the first
error of a bucket. -/
def groupErrors : List ExtractionErrorRec → List CommonError → List CommonError
  | [], acc => acc
  | e :: rest, acc =>
    if acc.any (fun ce => ce.category == e.category && ce.message == e.error_message) then
      groupErrors rest
        (acc.map (fun ce =>
          if ce.category == e.category && ce.message == e.error_message then
            { ce with count := ce.count + 1 }
          else ce))
    else
      groupErrors rest
        (acc ++ [{ category := e.category, message := e.error_message, count := 1,
                   example_field := e.field_name, suggested_fix := e.suggested_fix }])

/-- `ErrorHandler._generate_recommendations`. -/
def generateRecommendations (st : ErrorHandlerState) : List String :=
  (if st.counts.missing_sheet > 0 then
    ["❌ Missing Sheets: Verify sheet names in the reference file match those in Excel files"]
   else []) ++
  (if st.counts.formula_error > 0 then
    ["🔢 Formula Errors: Review Excel formulas for errors like #REF!, #VALUE!, #DIV/0!"]
   else []) ++
  (if st.counts.invalid_cell_address > 0 then
    ["📍 Invalid Addresses: Check cell address format in reference file (e.g., "
      ++ sq ++ "A1" ++ sq ++ ", " ++ sq ++ "B10" ++ sq ++ ")"]
   else []) ++
  (if st.counts.empty_value > 5 then
    ["📝 Many Empty Values: Verify if missing data is expected or indicates data quality issues"]
   else []) ++
  (if st.counts.data_type_error > 0 then
    ["🔄 Data Type Issues: Ensure cells contain the expected data types (numbers, text, dates)"]
   else []) ++
  (if st.errors.length > 0 then
    ["📊 Review the detailed error list above for field-specific fixes"]
   else [])

/-- `ErrorHandler.get_error_summary`. -/
def getErrorSummary (st : ErrorHandlerState) : ErrorSummary :=
  let total := st.errors.length
  if total = 0 then
    { total_errors := 0, category_breakdown := [], most_common := [],
      recommendations := [], detailed := [],
      summary_note := some "No errors encountered during extraction" }
  else
    let breakdown := allCategories.filterMap (fun cat =>
      let count := getCount cat st.counts
      if count > 0 then
        some { category := cat, count := count,
               percentage := (count : ℚ) * 100 / (total : ℚ) }
      else Option.none)
    let grouped := groupErrors st.errors []
    let common := (grouped.mergeSort (fun a b => b.count ≤ a.count)).take 10
    { total_errors := total
      category_breakdown := breakdown
      most_common := common
      recommendations := generateRecommendations st
      detailed := st.errors
      summary_note := Option.none }

/-- The `_extraction_metadata` entry of an extraction record
(`duration_seconds` not modelled, see header). -/
structure ExtractionMetadata where
  total_fields : Nat
  successful : Nat
  failed : Nat
  error_summary : ErrorSummary
deriving DecidableEq

/-- The record `extract_from_file` returns for one workbook:
`_file_path`, the `_extraction_errors` list fed by the per-field `except`
branch, the extracted `field_name → value` entries, and the metadata. -/
structure ExtractedData where
  file_path : String
  extraction_errors : List (String × String × String × String)
  fields : List (String × PyValue)
  metadata : ExtractionMetadata
deriving DecidableEq

/-- One iteration of the per-field loop of `extract_from_file`: resolve
the mapping, store the value, count the iteration as successful (the
`except` branch of the loop cannot run, `_extract_cell_value` returning
on every path), and carry the handler state. -/
def extractStep (wb : Workbook)
    (acc : List (String × PyValue) × Nat × ErrorHandlerState)
    (m : String × CellMapping) :
    List (String × PyValue) × Nat × ErrorHandlerState :=
  (acc.1 ++ [(m.1, (extractCellValue wb m.2.sheet_name m.2.cell_address m.1 acc.2.2).1)],
   acc.2.1 + 1,
   (extractCellValue wb m.2.sheet_name m.2.cell_address m.1 acc.2.2).2)

/-- `ExcelDataExtractor.extract_from_file`.  An unopenable workbook (the
`FileNotFoundError` guard or a raising loader) is the `Except.error`
input, which the source logs and re-raises.  With an open workbook the
per-field loop runs `_extract_cell_value` for every mapping; since that
call returns on every path, the per-field `except` branch never runs:
`successful` counts every iteration, `failed` and `_extraction_errors`
stay empty.  The handler state is the extractor's `self.error_handler`,
threaded in and returned (it is never reset by the source). -/
def extractFromFile (mappings : List (String × CellMapping))
    (st : ErrorHandlerState) (file_path : String)
    (loaded : Except String Workbook) :
    Except String (ExtractedData × ErrorHandlerState) :=
  match loaded with
  | Except.error e => Except.error e
  | Except.ok wb =>
    Except.ok
      ({ file_path := file_path
         extraction_errors := []
         fields := (mappings.foldl (extractStep wb) ([], 0, st)).1
         metadata :=
           { total_fields := mappings.length
             successful := (mappings.foldl (extractStep wb) ([], 0, st)).2.1
             failed := 0
             error_summary :=
               getErrorSummary (mappings.foldl (extractStep wb) ([], 0, st)).2.2 } },
       (mappings.foldl (extractStep wb) ([], 0, st)).2.2)

/-- `BatchFileProcessor.process_files`, sequential model: one shared
`ExcelDataExtractor` (hence one shared `ErrorHandler` state) is applied to
the files in turn; a file whose extraction raises is recorded in
`failed_files` and the batch continues.  The source dispatches the files
to a bounded thread pool over the same shared extractor; the thread
interleaving is not modelled, the sharing is. -/
def processFiles (mappings : List (String × CellMapping))
    (st : ErrorHandlerState) :
    List (String × Except String Workbook) →
    List ExtractedData × List String × ErrorHandlerState
  | [] => ([], [], st)
  | (path, loaded) :: rest =>
    match extractFromFile mappings st path loaded with
    | Except.ok (d, st') =>
      let r := processFiles mappings st' rest
      (d :: r.1, r.2.1, r.2.2)
    | Except.error e =>
      let r := processFiles mappings st rest
      (r.1, (path ++ ": " ++ e) :: r.2.1, r.2.2)

/-! Concrete fixtures used by several theorems below. -/

/-- A pyxlsb workbook without the `"Summary"` sheet. -/
def wbNoSummary : Workbook :=
  Workbook.xlsb ⟨[("OtherSheet", ⟨[[⟨0, 0, PyValue.intV 1⟩]]⟩)]⟩

/-- A pyxlsb workbook whose `"Summary"` sheet holds `154` at native
0-based coordinates `(5, 6)` — conventional cell `G6`. -/
def wbSummary : Workbook :=
  Workbook.xlsb ⟨[("Summary", ⟨[[⟨5, 6, PyValue.intV 154⟩]]⟩)]⟩

/-- One mapping, `UNITS → Summary!$G$6`. -/
def unitsMapping : CellMapping :=
  ⟨"NOI Assumptions", "Units", "Summary", "$G$6", "UNITS"⟩

/-- A one-entry mapping table. -/
def testMappings : List (String × CellMapping) := [("UNITS", unitsMapping)]

/-- An openpyxl workbook with a `"Summary"` sheet and no stored cells. -/
def wbXlsxSummary : Workbook := Workbook.xlsx ⟨["Summary"], []⟩

/-! General lemmas about the embedded operations. -/

/-- Every category is one of the nine enumerated members. -/
theorem mem_allCategories (c : ErrorCategory) : c ∈ allCategories := by
  cases c <;> simp [allCategories]

/-- `logError` appends exactly the given record. -/
theorem logError_errors (e : ExtractionErrorRec) (st : ErrorHandlerState) :
    (logError e st).errors = st.errors ++ [e] := rfl

/-- `logError` bumps exactly the record's category counter. -/
theorem logError_count (e : ExtractionErrorRec) (st : ErrorHandlerState) :
    getCount e.category (logError e st).counts = getCount e.category st.counts + 1 := by
  show getCount e.category (bumpCount e.category st.counts) = _
  cases e.category <;> rfl

/-- The outcome contract of one resolution step against handler state
`st`: either the state is untouched, or exactly one record of one of the
nine categories is logged and the NaN marker returned. -/
def ResolveOk (st : ErrorHandlerState) (r : PyValue × ErrorHandlerState) : Prop :=
  r.2 = st ∨ ∃ e, r = (nanValue, logError e st) ∧ e.category ∈ allCategories

/-- `process_cell_value` either leaves the handler state untouched or
logs exactly one record and returns the NaN marker. -/
theorem processCellValue_spec (v : PyValue) (fn sn ca : String)
    (st : ErrorHandlerState) :
    ResolveOk st (processCellValue v fn sn ca st) := by
  cases v with
  | none => exact Or.inl rfl
  | str s =>
    by_cases hs : s = ""
    · exact Or.inl (by simp [processCellValue, hs, handleEmptyValue])
    · simp only [processCellValue, if_neg hs]
      cases hfind : excelErrorCodes.find? (fun code => containsSub s.toList code.toList) with
      | some code =>
        simp only []
        exact Or.inr ⟨_, rfl, mem_allCategories _⟩
      | none =>
        simp only []
        split
        · exact Or.inl rfl
        · exact Or.inl rfl
  | intV n => exact Or.inl rfl
  | floatV k =>
    cases k with
    | nan => exact Or.inl rfl
    | inf b => exact Or.inl rfl
    | fin q => exact Or.inl rfl
  | boolV b => exact Or.inl rfl
  | datetimeV t => exact Or.inl rfl
  | objV o =>
    cases o with
    | some s => exact Or.inl rfl
    | none => exact Or.inr ⟨_, rfl, mem_allCategories _⟩

/-- `_extract_cell_value` satisfies the same outcome contract on every
input and every branch. -/
theorem extractCellValue_spec (wb : Workbook) (sn ca fn : String)
    (st : ErrorHandlerState) :
    ResolveOk st (extractCellValue wb sn ca fn st) := by
  cases wb with
  | xlsb w =>
    unfold extractCellValue
    by_cases hmem : sn ∈ w.sheetNames
    · simp only [if_pos hmem]
      cases htarget : pyxlsbTarget ca with
      | none =>
        exact Or.inr ⟨_, rfl, mem_allCategories _⟩
      | some tc =>
        obtain ⟨tr, tc⟩ := tc
        simp only []
        cases hfp : List.find? (fun p => p.1 == sn) w.sheets with
        | none => exact Or.inr ⟨_, rfl, mem_allCategories _⟩
        | some p =>
          simp only []
          cases hscan : scanRows tr tc p.2.rows 0 with
          | mk ov n =>
            cases ov with
            | some v =>
              simp only []
              exact processCellValue_spec v fn sn ca st
            | none =>
              simp only []
              cases hall : findInAll tr tc p.2.rows with
              | some v =>
                simp only []
                exact processCellValue_spec v fn sn ca st
              | none =>
                exact Or.inr ⟨_, rfl, mem_allCategories _⟩
    · simp only [if_neg hmem]
      exact Or.inr ⟨_, rfl, mem_allCategories _⟩
  | xlsx w =>
    unfold extractCellValue
    by_cases hmem : sn ∈ w.sheetnames
    · simp only [if_pos hmem]
      cases hlook : xlsxLookup w sn ca with
      | ok v =>
        simp only []
        exact processCellValue_spec v fn sn ca st
      | error e =>
        exact Or.inr ⟨_, rfl, mem_allCategories _⟩
    · simp only [if_neg hmem]
      exact Or.inr ⟨_, rfl, mem_allCategories _⟩

/-- C1: cell-level resolution is a total function of its inputs — for
every workbook handle, sheet name and address string it returns a value
without raising an exception to its caller, and every failure mode
either leaves the handler state unchanged or converts into exactly one
diagnostic whose category is one of the nine enumerated kinds, with the
canonical NaN marker as the returned value. -/
theorem c1_cell_resolution_total (wb : Workbook)
    (sheet_name cell_address field_name : String) (st : ErrorHandlerState) :
    (extractCellValue wb sheet_name cell_address field_name st).2 = st
    ∨ ∃ e, extractCellValue wb sheet_name cell_address field_name st
          = (nanValue, logError e st)
        ∧ e.category ∈ allCategories :=
  extractCellValue_spec wb sheet_name cell_address field_name st

/-- C3 counterexample: the EmptyValue classification that
`process_cell_value` performs on a null value appends no diagnostic and
increments no counter — the error list and the `empty_value` counter of
the fresh handler are unchanged (still empty/zero), contradicting the
claim that every classification appends exactly one record. -/
theorem c3_counterexample :
    processCellValue PyValue.none "field" "sheet" "A1" initHandler
      = (nanValue, initHandler)
    ∧ initHandler.errors = []
    ∧ initHandler.counts.empty_value = 0 :=
  ⟨rfl, rfl, rfl⟩

/-- C3 amended: every classification performed through the handler
methods appends exactly one diagnostic of its category and bumps that
category's counter — except `handle_empty_value` with `treat_as_error`
left `False` (the only form `process_cell_value` uses), which changes
nothing; no classification call throws. -/
theorem c3_classification_logging (st : ErrorHandlerState)
    (fn sn ca msg code vt et : String) (avail : List String)
    (sz : Option (Nat × Int)) (v : PyValue) (e : ExtractionErrorRec) :
    (∃ d, (handleMissingSheet fn sn avail st).2 = logError d st
        ∧ d.category = ErrorCategory.missing_sheet)
    ∧ (∃ d, (handleInvalidCellAddress fn sn ca msg st).2 = logError d st
        ∧ d.category = ErrorCategory.invalid_cell_address)
    ∧ (∃ d, (handleCellNotFound fn sn ca sz st).2 = logError d st
        ∧ d.category = ErrorCategory.cell_not_found)
    ∧ (∃ d, (handleFormulaError fn sn ca code st).2 = logError d st
        ∧ d.category = ErrorCategory.formula_error)
    ∧ (∃ d, (handleDataTypeError fn sn ca v vt et st).2 = logError d st
        ∧ d.category = ErrorCategory.data_type_error)
    ∧ (∃ d, (handleEmptyValue fn sn ca true st).2 = logError d st
        ∧ d.category = ErrorCategory.empty_value)
    ∧ (handleEmptyValue fn sn ca false st).2 = st
    ∧ (∃ d, (handleParsingError fn sn ca msg st).2 = logError d st
        ∧ d.category = ErrorCategory.parsing_error)
    ∧ (∃ d, (handleFileAccessError fn msg st).2 = logError d st
        ∧ d.category = ErrorCategory.file_access_error)
    ∧ (∃ d, (handleUnknownError fn sn ca msg st).2 = logError d st
        ∧ d.category = ErrorCategory.unknown_error)
    ∧ (logError e st).errors = st.errors ++ [e]
    ∧ getCount e.category (logError e st).counts
        = getCount e.category st.counts + 1
    ∧ (processCellValue PyValue.none fn sn ca st).2 = st :=
  ⟨⟨_, rfl, rfl⟩, ⟨_, rfl, rfl⟩, ⟨_, rfl, rfl⟩, ⟨_, rfl, rfl⟩, ⟨_, rfl, rfl⟩,
   ⟨_, rfl, rfl⟩, rfl, ⟨_, rfl, rfl⟩, ⟨_, rfl, rfl⟩, ⟨_, rfl, rfl⟩,
   logError_errors e st, logError_count e st, rfl⟩

/-- The per-field loop counts every mapping as successful. -/
theorem extractStep_fold_succ (wb : Workbook) :
    ∀ (ms : List (String × CellMapping)) (fields : List (String × PyValue))
      (n : Nat) (st : ErrorHandlerState),
      (List.foldl (extractStep wb) (fields, n, st) ms).2.1 = n + ms.length := by
  intro ms
  induction ms with
  | nil => intro fields n st; simp
  | cons m rest ih =>
    intro fields n st
    simp only [List.foldl_cons, extractStep]
    rw [ih]
    simp only [List.length_cons]
    omega

/-- C10: for every workbook that opens, `extract_from_file` reports
`successful` equal to the number of mapping entries and `failed` equal to
`0`, with an empty `_extraction_errors` list, regardless of how many
fields the resolver classified into a failure category: the resolver
returns the NaN marker instead of raising, so the per-field `try` branch
always succeeds. -/
theorem c10_success_counts_ignore_field_failures
    (mappings : List (String × CellMapping)) (st : ErrorHandlerState)
    (path : String) (wb : Workbook) :
    ∃ d stF, extractFromFile mappings st path (Except.ok wb) = Except.ok (d, stF)
      ∧ d.metadata.total_fields = mappings.length
      ∧ d.metadata.successful = mappings.length
      ∧ d.metadata.failed = 0
      ∧ d.extraction_errors = [] := by
  refine ⟨_, _, rfl, rfl, ?_, rfl, rfl⟩
  show (List.foldl (extractStep wb) ([], 0, st) mappings).2.1 = mappings.length
  simpa using extractStep_fold_succ wb mappings [] 0 st

/-- C4: the extractor's error handler is created once and never reset, so
running `extract_from_file` twice over the same workbook and mapping
table yields the same field values but a second record whose embedded
error summary has accumulated the first run's diagnostics (2 instead of
1) — the two `ExtractionRecord` contents differ. -/
theorem c4_error_summary_accumulates :
    ∃ d1 st1 d2 st2,
      extractFromFile testMappings initHandler "file.xlsb" (Except.ok wbNoSummary)
        = Except.ok (d1, st1)
      ∧ extractFromFile testMappings st1 "file.xlsb" (Except.ok wbNoSummary)
        = Except.ok (d2, st2)
      ∧ d1.fields = d2.fields
      ∧ d1.metadata.error_summary.total_errors = 1
      ∧ d2.metadata.error_summary.total_errors = 2 :=
  ⟨_, _, _, _, rfl, rfl, rfl, rfl, rfl⟩

/-- C5: one shared extractor (as `BatchFileProcessor` uses) carries its
diagnostic accumulator across workbooks: after workbook 1 produces a
MissingSheet diagnostic, workbook 2 resolves all of its fields cleanly
yet its record's error summary still contains workbook 1's diagnostic. -/
theorem c5_diagnostics_leak_across_workbooks :
    ∃ d1 d2 stF,
      processFiles testMappings initHandler
          [("f1.xlsb", Except.ok wbNoSummary), ("f2.xlsb", Except.ok wbSummary)]
        = ([d1, d2], [], stF)
      ∧ d2.fields = [("UNITS", PyValue.intV 154)]
      ∧ d2.metadata.error_summary.total_errors = 1
      ∧ d2.metadata.error_summary.detailed = d1.metadata.error_summary.detailed
      ∧ ∃ e, d1.metadata.error_summary.detailed = [e]
          ∧ e.category = ErrorCategory.missing_sheet
          ∧ e.sheet_name = "Summary" :=
  ⟨_, _, _, rfl, rfl, rfl, rfl, _, rfl, rfl, rfl⟩

/-- C6 counterexample: on the openpyxl container kind, the address
`"123ABC"` fails the `^([A-Z]+)(\d+)$` match, yet the resolver classifies
it as UnknownError (the address is handed raw to the container indexer,
whose failure lands in the catch-all), not as InvalidCellAddress as the
claim requires for both container kinds. -/
theorem c6_counterexample :
    splitAddrChars (pyUpper (stripDollars "123ABC".toList)) = Option.none
    ∧ ((extractCellValue wbXlsxSummary "Summary" "123ABC" "F" initHandler).2.errors.map
        (fun e => e.category)) = [ErrorCategory.unknown_error]
    ∧ ErrorCategory.unknown_error ≠ ErrorCategory.invalid_cell_address :=
  ⟨rfl, rfl, by decide⟩

/-- C6 amended: only on the pyxlsb container kind is the address
`$`-stripped, uppercased and matched against `^([A-Z]+)(\d+)$` with a
failed match classified InvalidCellAddress; on the openpyxl kind the raw
address goes straight to the container lookup and a parse failure there
is classified UnknownError. -/
theorem c6_address_validation (fn sn ca : String) (st : ErrorHandlerState)
    (wA : XlsbWorkbook) (wB : XlsxWorkbook) :
    (sn ∈ wA.sheetNames →
      splitAddrChars (pyUpper (stripDollars ca.toList)) = Option.none →
      ∃ e, extractCellValue (Workbook.xlsb wA) sn ca fn st = (nanValue, logError e st)
        ∧ e.category = ErrorCategory.invalid_cell_address)
    ∧ (sn ∈ wB.sheetnames →
      openpyxlParse ca = Option.none →
      ∃ e, extractCellValue (Workbook.xlsx wB) sn ca fn st = (nanValue, logError e st)
        ∧ e.category = ErrorCategory.unknown_error) := by
  constructor
  · intro hmem hsplit
    have hsplit2 : splitAddrChars (pyUpper (stripDollars ca.data)) = Option.none := hsplit
    have htarget : pyxlsbTarget ca = Option.none := by
      simp [pyxlsbTarget, hsplit2]
    unfold extractCellValue
    simp only [if_pos hmem, htarget]
    exact ⟨_, rfl, rfl⟩
  · intro hmem hparse
    have hlook : xlsxLookup wB sn ca
        = Except.error (ca ++ " is not a valid coordinate") := by
      simp [xlsxLookup, hparse]
    unfold extractCellValue
    simp only [if_pos hmem, hlook]
    exact ⟨_, rfl, rfl⟩

/-- C6 witness: both parts of the amended statement instantiated at
concrete workbooks and addresses. -/
theorem c6_address_validation_witness :
    (∃ e, extractCellValue (Workbook.xlsb ⟨[("S", ⟨[]⟩)]⟩) "S" "ZZ" "F" initHandler
        = (nanValue, logError e initHandler)
        ∧ e.category = ErrorCategory.invalid_cell_address)
    ∧ (∃ e, extractCellValue (Workbook.xlsx ⟨["Summary"], []⟩) "Summary" "123ABC" "F" initHandler
        = (nanValue, logError e initHandler)
        ∧ e.category = ErrorCategory.unknown_error) :=
  ⟨(c6_address_validation "F" "S" "ZZ" initHandler ⟨[("S", ⟨[]⟩)]⟩ ⟨["Summary"], []⟩).1
      (by decide) rfl,
   (c6_address_validation "F" "Summary" "123ABC" initHandler ⟨[("S", ⟨[]⟩)]⟩ ⟨["Summary"], []⟩).2
      (by decide) rfl⟩

/-- The 26 uppercase letters, the character class `[A-Z]`. -/
def upperLetterChars : List Char := "ABCDEFGHIJKLMNOPQRSTUVWXYZ".toList

/-- The 10 ASCII digits, the character class `[0-9]`. -/
def digitChars : List Char := "0123456789".toList

theorem upperLetterChars_props :
    ∀ c ∈ upperLetterChars,
      Char.toUpper c = c ∧ isUpperLetter c = true ∧ c ≠ '$' := by
  decide

theorem digitChars_props :
    ∀ c ∈ digitChars,
      Char.toUpper c = c ∧ isUpperLetter c = false ∧ c.isDigit = true
        ∧ c ≠ '$' := by
  decide

theorem takeWhile_append_all {p : Char → Bool} :
    ∀ (l1 l2 : List Char), (∀ c ∈ l1, p c = true) →
      (l1 ++ l2).takeWhile p = l1 ++ l2.takeWhile p := by
  intro l1 l2 h
  induction l1 with
  | nil => simp
  | cons a t ih =>
    simp only [List.cons_append, List.takeWhile_cons]
    rw [h a (List.mem_cons_self a t)]
    rw [ih (fun c hc => h c (List.mem_cons_of_mem a hc))]
    simp

theorem dropWhile_append_all {p : Char → Bool} :
    ∀ (l1 l2 : List Char), (∀ c ∈ l1, p c = true) →
      (l1 ++ l2).dropWhile p = l2.dropWhile p := by
  intro l1 l2 h
  induction l1 with
  | nil => simp
  | cons a t ih =>
    simp only [List.cons_append, List.dropWhile_cons]
    rw [h a (List.mem_cons_self a t)]
    simp only [if_pos rfl]
    exact ih (fun c hc => h c (List.mem_cons_of_mem a hc))

theorem map_id_of_fixed {f : Char → Char} :
    ∀ (l : List Char), (∀ c ∈ l, f c = c) → l.map f = l := by
  intro l h
  induction l with
  | nil => rfl
  | cons a t ih =>
    simp only [List.map_cons]
    rw [h a (List.mem_cons_self a t), ih (fun c hc => h c (List.mem_cons_of_mem a hc))]

theorem filter_self_of_all {p : Char → Bool} :
    ∀ (l : List Char), (∀ c ∈ l, p c = true) → l.filter p = l := by
  intro l h
  induction l with
  | nil => rfl
  | cons a t ih =>
    simp only [List.filter_cons]
    rw [h a (List.mem_cons_self a t)]
    rw [ih (fun c hc => h c (List.mem_cons_of_mem a hc))]
    simp

/-- The source's column fold with an arbitrary accumulator equals the
positional base-26 value. -/
theorem base26_foldl (cs : List Char) :
    ∀ a : Nat,
      cs.foldl (fun acc c => acc * 26 + (c.toNat - 'A'.toNat + 1)) a
        = a * 26 ^ cs.length + base26Spec cs := by
  induction cs with
  | nil => intro a; simp [base26Spec]
  | cons c t ih =>
    intro a
    simp only [List.foldl_cons, base26Spec, List.length_cons]
    rw [ih]
    ring

/-- The source's column-letter loop computes exactly the spec's base-26
positional arithmetic. -/
theorem base26_eq_spec (cs : List Char) : base26 cs = base26Spec cs := by
  have h := base26_foldl cs 0
  simpa [base26] using h

/-- A pyxlsb workbook whose sheet `"S"` holds `42` at native 0-based
coordinates `(5, 3)`. -/
def wbD6 : Workbook := Workbook.xlsb ⟨[("S", ⟨[[⟨5, 3, PyValue.intV 42⟩]]⟩)]⟩

/-- C2: the pyxlsb resolver translates a conventional address by base-26
positional arithmetic over the column letters and targets the native
0-based pair `(int(row) - 1, base26(col) - 1)`: concretely `"D6"` targets
`(5, 3)` (so the cell stored there is the one returned), `"AA"` converts
to column 27 before the offset, and in general every address made of
uppercase letters `L` followed by digits `R` targets
`(int(R) - 1, base26(L) - 1)`. -/
theorem c2_coordinate_translation :
    pyxlsbTarget "D6" = some (5, 3)
    ∧ base26 "AA".toList = 27
    ∧ pyxlsbTarget "AA1" = some (0, 26)
    ∧ (extractCellValue wbD6 "S" "D6" "F" initHandler).1 = PyValue.intV 42
    ∧ (∀ L R : String, L.toList ≠ [] → R.toList ≠ [] →
        (∀ c ∈ L.toList, c ∈ upperLetterChars) →
        (∀ c ∈ R.toList, c ∈ digitChars) →
        pyxlsbTarget (L ++ R)
          = some ((digitsToNat R.toList : Int) - 1,
                  (base26Spec L.toList : Int) - 1)) := by
  refine ⟨rfl, rfl, rfl, rfl, ?_⟩
  intro L R hL hR hLc hRc
  have hdata : (L ++ R).toList = L.toList ++ R.toList := by
    simp [String.toList]
  have hnodollar : ∀ c ∈ L.toList ++ R.toList, decide (c ≠ '$') = true := by
    intro c hc
    rcases List.mem_append.mp hc with h | h
    · exact decide_eq_true ((upperLetterChars_props c (hLc c h)).2.2)
    · exact decide_eq_true ((digitChars_props c (hRc c h)).2.2.2)
  have hstrip : stripDollars (L.toList ++ R.toList) = L.toList ++ R.toList :=
    filter_self_of_all _ hnodollar
  have hupper : pyUpper (L.toList ++ R.toList) = L.toList ++ R.toList := by
    refine map_id_of_fixed _ ?_
    intro c hc
    rcases List.mem_append.mp hc with h | h
    · exact (upperLetterChars_props c (hLc c h)).1
    · exact (digitChars_props c (hRc c h)).1
  obtain ⟨r, rest, hRdec⟩ := List.exists_cons_of_ne_nil hR
  have hLall : ∀ c ∈ L.toList, isUpperLetter c = true :=
    fun c hc => (upperLetterChars_props c (hLc c hc)).2.1
  have hrfalse : isUpperLetter r = false := by
    have := (digitChars_props r (hRc r (by rw [hRdec]; exact List.mem_cons_self r rest))).2.1
    exact this
  have htake : (L.toList ++ R.toList).takeWhile isUpperLetter = L.toList := by
    rw [takeWhile_append_all _ _ hLall, hRdec]
    simp [List.takeWhile_cons, hrfalse]
  have hdrop : (L.toList ++ R.toList).dropWhile isUpperLetter = R.toList := by
    rw [dropWhile_append_all _ _ hLall, hRdec]
    simp [List.dropWhile_cons, hrfalse]
  have hsplit : splitAddrChars (L.toList ++ R.toList) = some (L.toList, R.toList) := by
    simp only [splitAddrChars]
    rw [htake, hdrop]
    have hdig : R.toList.all Char.isDigit = true := by
      rw [List.all_eq_true]
      exact fun c hc => (digitChars_props c (hRc c hc)).2.2.1
    rw [if_pos ⟨hL, hR, hdig⟩]
  have hfin : pyxlsbTarget (L ++ R)
      = some ((digitsToNat R.toList : Int) - 1, (base26 L.toList : Int) - 1) := by
    simp only [pyxlsbTarget]
    rw [hdata, hstrip, hupper, hsplit]
  rw [hfin, base26_eq_spec]

/-- C2 witness: the general translation applied at `L = "AA"`, `R = "1"`. -/
theorem c2_coordinate_translation_witness :
    pyxlsbTarget ("AA" ++ "1")
      = some ((digitsToNat "1".toList : Int) - 1,
              (base26Spec "AA".toList : Int) - 1) :=
  c2_coordinate_translation.2.2.2.2 "AA" "1" (by decide) (by decide)
    (by decide) (by decide)

theorem mem_dropWhile_of_not {p : Char → Bool} :
    ∀ (l : List Char) (c : Char), c ∈ l → p c = false → c ∈ l.dropWhile p := by
  intro l c hc hpc
  induction l with
  | nil => cases hc
  | cons a t ih =>
    by_cases hpa : p a = true
    · rw [List.dropWhile_cons, hpa]
      simp only [if_pos rfl]
      rcases List.mem_cons.mp hc with h | h
      · subst h; rw [hpc] at hpa; cases hpa
      · exact ih h
    · rw [List.dropWhile_cons, Bool.of_not_eq_true hpa]
      simp only [Bool.false_eq_true, if_false]
      exact hc

/-- A non-whitespace character survives Python `str.strip()`. -/
theorem mem_pyStrip (cs : List Char) (c : Char)
    (hc : c ∈ cs) (hw : isWS c = false) : c ∈ pyStrip cs := by
  unfold pyStrip
  rw [List.mem_reverse]
  exact mem_dropWhile_of_not _ c
    (by rw [List.mem_reverse]; exact mem_dropWhile_of_not _ c hc hw) hw

theorem mem_of_charsStartWith :
    ∀ (ns hs : List Char), charsStartWith ns hs = true → ∀ c ∈ ns, c ∈ hs := by
  intro ns
  induction ns with
  | nil => intro hs _ c hc; cases hc
  | cons n t ih =>
    intro hs hstart c hc
    cases hs with
    | nil => cases hstart
    | cons h hs2 =>
      simp only [charsStartWith, Bool.and_eq_true, beq_iff_eq] at hstart
      rcases List.mem_cons.mp hc with h1 | h1
      · subst h1; rw [hstart.1]; exact List.mem_cons_self h hs2
      · exact List.mem_cons_of_mem h (ih hs2 hstart.2 c h1)

/-- Every character of a Python-substring-contained needle occurs in the
haystack. -/
theorem mem_of_containsSub (hay needle : List Char)
    (h : containsSub hay needle = true) : ∀ c ∈ needle, c ∈ hay := by
  unfold containsSub at h
  rw [List.any_eq_true] at h
  obtain ⟨i, _, hstart⟩ := h
  intro c hc
  exact List.mem_of_mem_drop (mem_of_charsStartWith _ _ hstart c hc)

theorem hash_not_in_indicators : ∀ l ∈ missingIndicators, '#' ∉ l := by
  decide

theorem hash_in_codes : ∀ code ∈ excelErrorCodes, '#' ∈ code.toList := by
  decide

/-- A string that cleans to a null sentinel contains none of the seven
spreadsheet error codes (all codes contain `#`, which survives lowering
and stripping, and no sentinel contains `#`). -/
theorem sentinel_no_code (s : String)
    (h : pyStrip (pyLower s.toList) ∈ missingIndicators) :
    excelErrorCodes.find? (fun code => containsSub s.toList code.toList)
      = Option.none := by
  rw [List.find?_eq_none]
  intro code hcode hcon
  have h1 : '#' ∈ s.toList :=
    mem_of_containsSub _ _ hcon '#' (hash_in_codes code hcode)
  have h2 : '#' ∈ pyLower s.toList := by
    unfold pyLower
    exact List.mem_map.mpr ⟨'#', h1, by decide⟩
  have h3 : '#' ∈ pyStrip (pyLower s.toList) := mem_pyStrip _ _ h2 (by decide)
  exact hash_not_in_indicators _ h h3

/-- C7: a null value, a string that trims and lowercases to one of the
eight null sentinels, and a non-finite numeric value are all routed to
the EmptyValue handler (`handle_empty_value` with its default flag) by
`process_cell_value`, which returns the canonical NaN marker and never
the matching string itself. -/
theorem c7_null_sentinel_normalization (s fn sn ca : String)
    (st : ErrorHandlerState) :
    (pyStrip (pyLower s.toList) ∈ missingIndicators →
      processCellValue (PyValue.str s) fn sn ca st
        = handleEmptyValue fn sn ca false st
      ∧ (processCellValue (PyValue.str s) fn sn ca st).1 = nanValue
      ∧ ∀ t, (processCellValue (PyValue.str s) fn sn ca st).1 ≠ PyValue.str t)
    ∧ processCellValue PyValue.none fn sn ca st
        = handleEmptyValue fn sn ca false st
    ∧ processCellValue (PyValue.floatV FloatKind.nan) fn sn ca st
        = handleEmptyValue fn sn ca false st
    ∧ (∀ b, processCellValue (PyValue.floatV (FloatKind.inf b)) fn sn ca st
        = handleEmptyValue fn sn ca false st) := by
  refine ⟨?_, rfl, rfl, fun b => rfl⟩
  intro h
  have heq : processCellValue (PyValue.str s) fn sn ca st
      = handleEmptyValue fn sn ca false st := by
    by_cases hs : s = ""
    · simp [processCellValue, hs]
    · simp only [processCellValue, if_neg hs, sentinel_no_code s h]
      rw [if_pos h]
  refine ⟨heq, by rw [heq]; rfl, ?_⟩
  intro t
  rw [heq]
  simp [handleEmptyValue, nanValue]

/-- C7 witness: the sentinel branch applied to the concrete string
`" N/A "`. -/
theorem c7_null_sentinel_normalization_witness :
    pyStrip (pyLower " N/A ".toList) ∈ missingIndicators
    ∧ processCellValue (PyValue.str " N/A ") "f" "s" "A1" initHandler
        = handleEmptyValue "f" "s" "A1" false initHandler :=
  ⟨by decide,
   ((c7_null_sentinel_normalization " N/A " "f" "s" "A1" initHandler).1
      (by decide)).1⟩

theorem empty_hay_no_code :
    ∀ code ∈ excelErrorCodes, containsSub [] code.toList = false := by
  decide

/-- C8: a string containing any of the seven spreadsheet error codes
anywhere is classified FormulaError by `process_cell_value` — exactly one
diagnostic of that category is logged and the canonical NaN marker is
returned, never the string itself. -/
theorem c8_formula_error_normalization (s fn sn ca : String)
    (st : ErrorHandlerState) (code : String)
    (hmem : code ∈ excelErrorCodes)
    (hcon : containsSub s.toList code.toList = true) :
    (processCellValue (PyValue.str s) fn sn ca st).1 = nanValue
    ∧ (∀ t, (processCellValue (PyValue.str s) fn sn ca st).1 ≠ PyValue.str t)
    ∧ ∃ e, (processCellValue (PyValue.str s) fn sn ca st).2 = logError e st
        ∧ e.category = ErrorCategory.formula_error := by
  have hs : s ≠ "" := by
    intro h0
    rw [h0] at hcon
    have hfalse := empty_hay_no_code code hmem
    rw [show ("" : String).toList = [] from rfl] at hcon
    rw [hfalse] at hcon
    cases hcon
  have hfind : ∃ c, excelErrorCodes.find?
      (fun code => containsSub s.toList code.toList) = some c := by
    cases hf : excelErrorCodes.find? (fun code => containsSub s.toList code.toList) with
    | some c => exact ⟨c, rfl⟩
    | none =>
      rw [List.find?_eq_none] at hf
      exact absurd hcon (hf code hmem)
  obtain ⟨c, hc⟩ := hfind
  simp only [processCellValue, if_neg hs, hc]
  exact ⟨rfl, fun t => by simp [handleFormulaError, nanValue], ⟨_, rfl, rfl⟩⟩

/-- C8 witness: the code `#DIV/0!` inside the concrete string
`"x#DIV/0!y"`. -/
theorem c8_formula_error_normalization_witness :
    "#DIV/0!" ∈ excelErrorCodes
    ∧ containsSub "x#DIV/0!y".toList "#DIV/0!".toList = true
    ∧ (processCellValue (PyValue.str "x#DIV/0!y") "f" "s" "A1" initHandler).1
        = nanValue :=
  ⟨by decide, by decide,
   (c8_formula_error_normalization "x#DIV/0!y" "f" "s" "A1" initHandler
      "#DIV/0!" (by decide) (by decide)).1⟩

/-- A reference row whose cell address carries `$` markers. -/
def rowDollar : RefRow := ⟨some "Cat", some "Units", some "Summary", some "$G$6"⟩

/-- A reference row whose sheet entry is missing (`NaN`). -/
def rowNoSheet : RefRow := ⟨some "Cat", some "Units", Option.none, some "G6"⟩

/-- A reference row whose description entry is missing (`NaN`). -/
def rowNoDesc : RefRow := ⟨some "Cat", Option.none, some "S", some "A1"⟩

/-- C9 counterexample: the loader keeps the `$` characters of a loaded
cell address (`"$G$6"` is stored verbatim, merely trimmed and uppercased),
and a row whose sheet entry is blank is loaded rather than skipped (its
sheet name becomes the string `"nan"`) — refuting both halves of the
claim at concrete rows. -/
theorem c9_counterexample :
    (loadMappings [rowDollar]).map (fun p => (p.1, p.2.cell_address))
      = [("UNITS", "$G$6")]
    ∧ '$' ∈ "$G$6".toList
    ∧ loadMappings [rowNoSheet] ≠ []
    ∧ (loadMappings [rowNoSheet]).map (fun p => p.2.sheet_name) = ["nan"] :=
  ⟨rfl, by decide, by decide, rfl⟩

theorem mem_upsert :
    ∀ (m : List (String × CellMapping)) (k : String) (v : CellMapping)
      (mp : String × CellMapping),
      mp ∈ upsert m k v → mp ∈ m ∨ mp = (k, v) := by
  intro m k v
  induction m with
  | nil =>
    intro mp hmp
    simp only [upsert] at hmp
    rcases List.mem_cons.mp hmp with h | h
    · exact Or.inr h
    · cases h
  | cons a rest ih =>
    intro mp hmp
    simp only [upsert] at hmp
    by_cases hk : a.1 = k
    · rw [if_pos hk] at hmp
      rcases List.mem_cons.mp hmp with h | h
      · exact Or.inr h
      · exact Or.inl (List.mem_cons_of_mem a h)
    · rw [if_neg hk] at hmp
      rcases List.mem_cons.mp hmp with h | h
      · exact Or.inl (h ▸ List.mem_cons_self a rest)
      · rcases ih mp h with h2 | h2
        · exact Or.inl (List.mem_cons_of_mem a h2)
        · exact Or.inr h2

theorem mem_loadMappings_fold :
    ∀ (rows : List RefRow) (acc : List (String × CellMapping))
      (mp : String × CellMapping),
      mp ∈ List.foldl loadStep acc rows →
      mp ∈ acc ∨ ∃ r ∈ rows, rowAccepted r = true ∧ mp.2 = mkMapping r := by
  intro rows
  induction rows with
  | nil => intro acc mp hmp; exact Or.inl hmp
  | cons r rest ih =>
    intro acc mp hmp
    rw [List.foldl_cons] at hmp
    rcases ih (loadStep acc r) mp hmp with h | h
    · unfold loadStep at h
      by_cases hr : rowAccepted r = true
      · rw [if_pos hr] at h
        rcases mem_upsert _ _ _ _ h with h2 | h2
        · exact Or.inl h2
        · exact Or.inr ⟨r, List.mem_cons_self r rest, hr, by rw [h2]⟩
      · rw [if_neg hr] at h
        exact Or.inl h
    · obtain ⟨r2, hr2, hacc, hmk⟩ := h
      exact Or.inr ⟨r2, List.mem_cons_of_mem r hr2, hacc, hmk⟩

/-- C9 amended: the loader skips a row iff its description or its
cell-address entry is missing (`pd.notna` fails) — blank-after-trim
strings, a missing category (defaulted to `"Uncategorized"`) or a missing
sheet (stringified to `"nan"`) do not cause a skip; every loaded
mapping's cell address is the whitespace-trimmed, uppercased source text
with any `$` characters retained (they are stripped later, by the
kind-A resolver). -/
theorem c9_loader_behavior :
    (∀ (pre post : List RefRow) (r : RefRow), rowAccepted r = false →
       loadMappings (pre ++ r :: post) = loadMappings (pre ++ post))
    ∧ (∀ (rows : List RefRow) (mp : String × CellMapping),
       mp ∈ loadMappings rows →
       ∃ r ∈ rows, rowAccepted r = true ∧ mp.2 = mkMapping r)
    ∧ (∀ r : RefRow, (mkMapping r).cell_address
        = String.mk (pyUpper (pyStrip (pyStrOfOpt r.cell).toList))) := by
  refine ⟨?_, ?_, fun r => rfl⟩
  · intro pre post r hr
    unfold loadMappings
    rw [List.foldl_append, List.foldl_append, List.foldl_cons]
    have : loadStep (List.foldl loadStep [] pre) r = List.foldl loadStep [] pre := by
      unfold loadStep
      rw [hr]
      simp
    rw [this]
  · intro rows mp hmp
    rcases mem_loadMappings_fold rows [] mp hmp with h | h
    · cases h
    · exact h

/-- C9 witness: the skip rule applied to a concrete description-less row,
and the address form of a concrete loaded row. -/
theorem c9_loader_behavior_witness :
    rowAccepted rowNoDesc = false
    ∧ loadMappings ([] ++ rowNoDesc :: [rowDollar]) = loadMappings ([] ++ [rowDollar])
    ∧ (mkMapping rowDollar).cell_address
        = String.mk (pyUpper (pyStrip (pyStrOfOpt rowDollar.cell).toList)) :=
  ⟨rfl, c9_loader_behavior.1 [] [rowDollar] rowNoDesc rfl,
   c9_loader_behavior.2.2 rowDollar⟩

end BRUW
